import Mathlib

/-!
Shallow embedding of the Device Session Engine of `JanOS_dev_0.0.1.py`:
the serial response collector (`SerialManager.read_response`), the line
classifiers (`NetworkManager.parse_network_line`, the sniffer packet-count
scanner of `JanOS.update_sniffer_display`, the probe-line parser of
`JanOS.show_sniffer_probes`, the portal event classifier of
`JanOS.update_portal_display`), the scan exchange loop (`JanOS.do_scan`),
network selection (`JanOS.select_networks_menu`) and attack teardown
(`JanOS.stop_all_attacks`).

Python strings are modelled as Lean `String` (operating on `String.data`,
a `List Char`).  All string scanning is implemented by structural
recursion so that every definition evaluates inside the kernel.  Regular
expressions used by the source are modelled by explicit leftmost scanners;
the Python class `\d` is modelled as ASCII digits and `\s` as
`Char.isWhitespace`, and lines are assumed newline-free (the source strips
every line it reads before classifying it).
-/

/-- Exact literal match of `pat` at the head of `l`. -/
def litAt : List Char → List Char → Bool
  | [], _ => true
  | _ :: _, [] => false
  | p :: ps, c :: cs => p == c && litAt ps cs

/-- Suffix of `l` that follows the first occurrence of `pat`;
`none` when `pat` does not occur.  Models locating a substring. -/
def dropAfterFirst (pat : List Char) : List Char → Option (List Char)
  | [] => if litAt pat [] then some [] else none
  | c :: t => if litAt pat (c :: t) then some ((c :: t).drop pat.length)
              else dropAfterFirst pat t

/-- Model of the Python substring test `pat in hay`. -/
def strContains (hay pat : String) : Bool :=
  (dropAfterFirst pat.data hay.data).isSome

/-- Model of Python `str.lower()` (ASCII). -/
def lowerStr (s : String) : String :=
  String.mk (s.data.map Char.toLower)

/-- Model of Python `str.strip('"')`: remove leading and trailing quotes. -/
def stripQuotes (s : String) : String :=
  String.mk (((s.data.dropWhile (fun c => c == '"')).reverse.dropWhile
    (fun c => c == '"')).reverse)

/-- Model of Python `str.strip()`: remove leading and trailing whitespace. -/
def stripWS (s : String) : String :=
  String.mk (((s.data.dropWhile Char.isWhitespace).reverse.dropWhile
    Char.isWhitespace).reverse)

/-- Fuel-driven split of `l` on the separator `sep` (leftmost,
non-overlapping), accumulating the current piece in `acc`.  With
`fuel = l.length` this is Python `str.split(sep)` for nonempty `sep`. -/
def splitOnFuel (sep : List Char) : Nat → List Char → List Char → List (List Char)
  | _, [], acc => [acc.reverse]
  | 0, l, acc => [acc.reverse ++ l]
  | fuel + 1, c :: t, acc =>
    if litAt sep (c :: t) then
      acc.reverse :: splitOnFuel sep fuel ((c :: t).drop sep.length) []
    else
      splitOnFuel sep fuel t (c :: acc)

/-- Model of Python `s.split(sep)` for a nonempty separator. -/
def pySplit (s sep : String) : List String :=
  (splitOnFuel sep.data s.data.length s.data []).map String.mk

/-- Decimal digits of `n` (most significant first), fuelled. -/
def natToChars : Nat → Nat → List Char
  | 0, _ => []
  | fuel + 1, n =>
    if n < 10 then [Char.ofNat (48 + n)]
    else natToChars fuel (n / 10) ++ [Char.ofNat (48 + n % 10)]

/-- Model of Python `str(n)` for a natural number. -/
def natToStr (n : Nat) : String :=
  String.mk (natToChars (n + 1) n)

/-- Model of Python `' '.join(xs)`. -/
def joinSpace : List String → String
  | [] => ""
  | [x] => x
  | x :: y :: t => x ++ " " ++ joinSpace (y :: t)

/-- Leftmost-position scanner: apply the position matcher `f` to every
suffix of the input, left to right, returning the first hit.  This is the
model of `re.search` for the fixed patterns below. -/
def scanPositions (f : List Char → Option (List Char)) : List Char → Option (List Char)
  | [] => f []
  | c :: t =>
    match f (c :: t) with
    | some x => some x
    | none => scanPositions f t

/-- Model of Python `int(s)` applied to a regex group known to consist of
digits: defined only on nonempty all-digit strings. -/
def digitsToNat (ds : List Char) : Option Nat :=
  if !ds.isEmpty && ds.all Char.isDigit then
    some (ds.foldl (fun a c => a * 10 + (c.toNat - 48)) 0)
  else none

-- ==========================================================================
-- NetworkManager (source lines 584-632)
-- ==========================================================================

/-- A parsed network record, one per accepted scan line
(`NetworkManager.parse_network_line`). -/
structure Network where
  index : String
  ssid : String
  vendor : String
  bssid : String
  channel : String
  auth : String
  rssi : String
  band : String
deriving DecidableEq

/-- State of `NetworkManager.__init__`. -/
structure NetworkManager where
  networks : List Network
  network_count : Nat
  selected_networks : String
  scan_done : Bool
deriving DecidableEq

/-- Fresh `NetworkManager` state. -/
def networkManagerInit : NetworkManager :=
  { networks := [], network_count := 0, selected_networks := "", scan_done := false }

/-- The stripped CSV fields of a line:
`[p.strip('"') for p in line.split('","')]`. -/
def network_fields (line : String) : List String :=
  (pySplit line "\",\"").map stripQuotes

/-- Record construction from the field list: the `len(parts) < 8` guard,
then the dict built from `parts[0] .. parts[7]`.  An out-of-range index
(an `IndexError`, which the surrounding `try` would catch) is modelled as
`Except.error ()`. -/
def mkNetwork (parts : List String) : Except Unit (Option Network) :=
  if parts.length < 8 then Except.ok none
  else
    match parts.get? 0, parts.get? 1, parts.get? 2, parts.get? 3,
          parts.get? 4, parts.get? 5, parts.get? 6, parts.get? 7 with
    | some p0, some p1, some p2, some p3, some p4, some p5, some p6, some p7 =>
      Except.ok (some
        { index := p0
          ssid := if p1 = "" then "<hidden>" else p1
          vendor := p2
          bssid := p3
          channel := p4
          auth := p5
          rssi := p6
          band := p7 })
    | _, _, _, _, _, _, _, _ => Except.error ()

/-- Body of `parse_network_line` after the quote guard (the `try` block). -/
def parse_network_line_body (line : String) : Except Unit (Option Network) :=
  mkNetwork (network_fields line)

/-- Model of `NetworkManager.parse_network_line`: quote guard, then the
`try` body with any exception mapped to `None`. -/
def parse_network_line (line : String) : Option Network :=
  if !(litAt ['"'] line.data) then none
  else
    match parse_network_line_body line with
    | Except.ok r => r
    | Except.error _ => none

/-- Model of `NetworkManager.add_network`. -/
def add_network (nm : NetworkManager) (line : String) : NetworkManager :=
  match parse_network_line line with
  | some n => { nm with networks := nm.networks ++ [n],
                        network_count := nm.network_count + 1 }
  | none => nm

/-- Model of `NetworkManager.clear_networks`. -/
def clear_networks (nm : NetworkManager) : NetworkManager :=
  { nm with networks := [], network_count := 0, scan_done := false }

/-- Model of `NetworkManager.set_selected_networks`. -/
def set_selected_networks (nm : NetworkManager) (selection : String) : NetworkManager :=
  { nm with selected_networks := selection }

/-- The invariant of claim C10: the stored count tracks the list length. -/
def count_inv (nm : NetworkManager) : Prop :=
  nm.network_count = nm.networks.length

instance (nm : NetworkManager) : Decidable (count_inv nm) := by
  unfold count_inv; infer_instance

-- ==========================================================================
-- SerialManager.read_response (source lines 506-527)
-- ==========================================================================

/-- Timeout constants of the source. -/
def SCAN_TIMEOUT : Nat := 15

/-- Polling loop of `SerialManager.read_response`, over a discrete time
trace: one trace event per loop iteration (one tick each — a `some line`
event is a successful `readline`, `none` is an empty poll followed by the
0.1 s sleep).  The loop runs while `elapsed < timeout`, appending every
non-empty line; it has no other exit.  Returns the accumulated lines and
the elapsed ticks at return. -/
def read_response_go : Nat → List (Option String) → List String → Nat →
    List String × Nat
  | 0, _, acc, elapsed => (acc.reverse, elapsed)
  | fuel + 1, trace, acc, elapsed =>
    match trace with
    | [] => read_response_go fuel [] acc (elapsed + 1)
    | some line :: rest =>
      read_response_go fuel rest (if line == "" then acc else line :: acc)
        (elapsed + 1)
    | none :: rest => read_response_go fuel rest acc (elapsed + 1)

/-- Model of `SerialManager.read_response`: collect non-empty lines from
the trace until the timeout elapses. -/
def read_response (timeout : Nat) (trace : List (Option String)) :
    List String × Nat :=
  read_response_go timeout trace [] 0

-- ==========================================================================
-- JanOS.update_sniffer_display (source lines 736-747)
-- ==========================================================================

/-- Case-insensitive literal match of the lowercase pattern `pat` at the
head of `l` (the effect of `re.IGNORECASE` on a literal). -/
def litAtCaseless : List Char → List Char → Bool
  | [], _ => true
  | _ :: _, [] => false
  | p :: ps, c :: cs => p == c.toLower && litAtCaseless ps cs

/-- Position matcher for `(\d+)\s+packets?` (IGNORECASE): a nonempty digit
run, at least one whitespace character, then the literal `packet`
(the optional trailing `s` does not affect the group). -/
def packetMatchAt (l : List Char) : Option (List Char) :=
  let ds := l.takeWhile Char.isDigit
  if ds.isEmpty then none
  else
    let rest := l.drop ds.length
    let ws := rest.takeWhile Char.isWhitespace
    if ws.isEmpty then none
    else if litAtCaseless "packet".data (rest.drop ws.length) then some ds
    else none

/-- Model of `re.search(r'(\d+)\s+packets?', data, re.IGNORECASE)`,
returning the digit group of the leftmost match. -/
def findPacketGroup (data : String) : Option (List Char) :=
  scanPositions packetMatchAt data.data

/-- Position matcher for `captured:\s*(\d+)` (IGNORECASE). -/
def capturedMatchAt (l : List Char) : Option (List Char) :=
  if litAtCaseless "captured:".data l then
    let ds := ((l.drop 9).dropWhile Char.isWhitespace).takeWhile Char.isDigit
    if ds.isEmpty then none else some ds
  else none

/-- Model of `re.search(r'captured:\s*(\d+)', data, re.IGNORECASE)`. -/
def findCapturedGroup (data : String) : Option (List Char) :=
  scanPositions capturedMatchAt data.data

/-- Model of `JanOS.update_sniffer_display` that makes the implicit
`int()` conversions explicit: `none` would mean an uncaught exception
(proved impossible in claim C9). -/
def update_sniffer_checked (packets : Nat) (data : String) : Option Nat :=
  match findPacketGroup data with
  | some ds => digitsToNat ds
  | none =>
    if strContains (lowerStr data) "captured" then
      match findCapturedGroup data with
      | some ds => digitsToNat ds
      | none => some packets
    else some packets

/-- Model of `JanOS.update_sniffer_display`: the new value of
`self.sniffer_packets`.  The `none` fallback branch is unreachable
(claim C9). -/
def update_sniffer_display (packets : Nat) (data : String) : Nat :=
  match update_sniffer_checked packets data with
  | some k => k
  | none => packets

-- ==========================================================================
-- Probe-line parsing in JanOS.show_sniffer_probes (source lines 1189-1228)
-- ==========================================================================

/-- One displayed probe record. -/
structure ProbeRecord where
  client_mac : String
  ssid : String
  rssi : String
  timestamp : String
deriving DecidableEq

/-- Hex digit class `[0-9A-Fa-f]`. -/
def isHexDigitB (c : Char) : Bool :=
  c.isDigit || (decide (97 ≤ c.toNat) && decide (c.toNat ≤ 102)) ||
    (decide (65 ≤ c.toNat) && decide (c.toNat ≤ 70))

/-- Separator class `[:-]` of the MAC pattern. -/
def isMacSep (c : Char) : Bool := c == ':' || c == '-'

/-- Position matcher for `([0-9A-Fa-f]{2}[:-]){5}([0-9A-Fa-f]{2})`;
returns the whole 17-character match (`group(0)`). -/
def macAt (l : List Char) : Option (List Char) :=
  match l with
  | a1 :: a2 :: s1 :: b1 :: b2 :: s2 :: c1 :: c2 :: s3 ::
      d1 :: d2 :: s4 :: e1 :: e2 :: s5 :: f1 :: f2 :: _ =>
    if [a1, a2, b1, b2, c1, c2, d1, d2, e1, e2, f1, f2].all isHexDigitB &&
        [s1, s2, s3, s4, s5].all isMacSep then
      some [a1, a2, s1, b1, b2, s2, c1, c2, s3, d1, d2, s4, e1, e2, s5, f1, f2]
    else none
  | _ => none

/-- Position matcher for `(-?\d+)\s*dBm?` (IGNORECASE): the group is the
optional minus sign plus a digit run, and the match additionally requires
optional whitespace followed by the literal `dB` (only the `m` is
optional). -/
def rssiAt (l : List Char) : Option (List Char) :=
  let negRest : Bool × List Char :=
    match l with
    | '-' :: t => (true, t)
    | _ => (false, l)
  let ds := negRest.2.takeWhile Char.isDigit
  if ds.isEmpty then none
  else if litAtCaseless "db".data
      ((negRest.2.drop ds.length).dropWhile Char.isWhitespace) then
    some ((if negRest.1 then ['-'] else []) ++ ds)
  else none

/-- Position matcher for the timestamp pattern `\[(\d+:\d+:\d+)\]`
(the group excludes the brackets). -/
def tsAt (l : List Char) : Option (List Char) :=
  match l with
  | '[' :: rest =>
    let d1 := rest.takeWhile Char.isDigit
    if d1.isEmpty then none
    else
      match rest.drop d1.length with
      | ':' :: r2 =>
        let d2 := r2.takeWhile Char.isDigit
        if d2.isEmpty then none
        else
          match r2.drop d2.length with
          | ':' :: r3 =>
            let d3 := r3.takeWhile Char.isDigit
            if d3.isEmpty then none
            else
              match r3.drop d3.length with
              | ']' :: _ => some (d1 ++ ':' :: d2 ++ ':' :: d3)
              | _ => none
          | _ => none
      | _ => none
  | _ => none

/-- The SSID extraction of the probe parser: the text after whichever of
`SSID:`, `->`, `looking for` occurs (checked in that order), trimmed at
the next comma (for `SSID:`) or opening parenthesis (for `->`), stripped,
and kept only when nonempty and not a placeholder. -/
def probeSsid (line : String) : String :=
  if strContains line "SSID:" then
    let part := stripWS (((pySplit ((pySplit line "SSID:").getD 1 "") ",").getD 0 ""))
    if part ≠ "" && part ≠ "N/A" && part ≠ "unknown" then part else "<hidden>"
  else if strContains line "->" then
    let part := stripWS (((pySplit ((pySplit line "->").getD 1 "") "(").getD 0 ""))
    if part ≠ "" && part ≠ "N/A" && part ≠ "unknown" then part else "<hidden>"
  else if strContains line "looking for" then
    let part := stripWS ((pySplit line "looking for").getD 1 "")
    if part ≠ "" && part ≠ "N/A" && part ≠ "unknown" then part else "<hidden>"
  else "<hidden>"

/-- Model of the per-line probe parsing of `JanOS.show_sniffer_probes`
(defaults `N/A` / `<hidden>` / `N/A` / empty timestamp, best-effort field
extraction, 30-character SSID truncation). -/
def parse_probe_line (line : String) : ProbeRecord :=
  let mac :=
    match scanPositions macAt line.data with
    | some m => String.mk m
    | none => "N/A"
  let ssid0 := probeSsid line
  let ssid := if 30 < ssid0.data.length
    then String.mk (ssid0.data.take 27) ++ "..." else ssid0
  let rssi :=
    match scanPositions rssiAt line.data with
    | some g => String.mk g ++ "dBm"
    | none => "N/A"
  let timestamp :=
    match scanPositions tsAt line.data with
    | some t => String.mk t
    | none => ""
  { client_mac := mac, ssid := ssid, rssi := rssi, timestamp := timestamp }

-- ==========================================================================
-- JanOS.update_portal_display (source lines 749-789)
-- ==========================================================================

/-- The portal event kinds, in the priority order of the source's
`if`/`elif` chain. -/
inductive PortalEvent where
  | clientConnected
  | clientCountUpdate
  | passwordSubmission
  | formSubmission
  | savedNotice
  | errorKeyword
  | successKeyword
  | noEvent
deriving DecidableEq

/-- The portal-related session state touched by `update_portal_display`. -/
structure PortalState where
  client_count : Nat
  submitted_forms : Nat
  last_submitted_data : String
deriving DecidableEq

/-- Position matcher for `Client count = (\d+)` (case-sensitive). -/
def clientCountAt (l : List Char) : Option (List Char) :=
  if litAt "Client count = ".data l then
    let ds := (l.drop 15).takeWhile Char.isDigit
    if ds.isEmpty then none else some ds
  else none

/-- Model of `re.search(r'Client count = (\d+)', data)`. -/
def findClientCount (data : String) : Option (List Char) :=
  scanPositions clientCountAt data.data

/-- Model of `re.search(r'Password:\s*(.+)$', data)` on a newline-free
line: the text after the first `Password:`, with leading whitespace
dropped; when only whitespace follows, the regex backtracks and captures
the final whitespace character; `none` when nothing follows at all. -/
def passwordCapture (data : String) : Option String :=
  match dropAfterFirst "Password:".data data.data with
  | none => none
  | some rest =>
    let body := rest.dropWhile Char.isWhitespace
    if !body.isEmpty then some (String.mk body)
    else
      match rest.getLast? with
      | some c => some (String.mk [c])
      | none => none

/-- Model of `JanOS.update_portal_display`: the ordered keyword
classification and the single state mutation of the first matching
branch; also reports which branch fired. -/
def update_portal_display (s : PortalState) (data : String) :
    PortalState × PortalEvent :=
  if strContains data "Client connected" then
    ({ s with client_count := s.client_count + 1 }, .clientConnected)
  else if strContains data "Client count" then
    match findClientCount data with
    | some ds =>
      match digitsToNat ds with
      | some k => ({ s with client_count := k }, .clientCountUpdate)
      | none => (s, .clientCountUpdate)
    | none => (s, .clientCountUpdate)
  else if strContains data "Password:" then
    let s1 := { s with submitted_forms := s.submitted_forms + 1 }
    match passwordCapture data with
    | some pw =>
      ({ s1 with last_submitted_data := "Password: " ++ pw }, .passwordSubmission)
    | none => (s1, .passwordSubmission)
  else if strContains data "Form data:" ||
      strContains (lowerStr data) "username:" ||
      strContains (lowerStr data) "email:" then
    ({ s with submitted_forms := s.submitted_forms + 1,
              last_submitted_data := data }, .formSubmission)
  else if strContains data "Portal data saved" then (s, .savedNotice)
  else if strContains (lowerStr data) "error" ||
      strContains (lowerStr data) "failed" then (s, .errorKeyword)
  else if strContains data "started successfully" ||
      strContains data "enabled" then (s, .successKeyword)
  else (s, .noEvent)

-- ==========================================================================
-- JanOS.do_scan collection loop (source lines 841-868)
-- ==========================================================================

/-- Per-batch processing of the scan loop: each line is parsed into the
`NetworkManager` when it starts with a quote, and the loop returns
immediately (flag `true`) once a line contains the sentinel
`Scan results printed`, leaving the rest of the batch unread. -/
def scan_process_batch (nm : NetworkManager) : List String → NetworkManager × Bool
  | [] => (nm, false)
  | line :: rest =>
    let nm1 := if litAt ['"'] line.data then add_network nm line else nm
    if strContains line "Scan results printed" then (nm1, true)
    else scan_process_batch nm1 rest

/-- Outer collection loop of `do_scan`: one iteration per elapsed tick
(each iteration is one `read_response(timeout=1)` window whose lines form
one batch), bounded by `SCAN_TIMEOUT`; on the sentinel the function
returns at once with `scan_done` set. -/
def do_scan_go : Nat → List (List String) → NetworkManager → Nat →
    NetworkManager × Nat
  | 0, _, nm, elapsed => (nm, elapsed)
  | fuel + 1, batches, nm, elapsed =>
    let batch := batches.headD []
    match scan_process_batch nm batch with
    | (nm1, true) => ({ nm1 with scan_done := true }, elapsed + 1)
    | (nm1, false) => do_scan_go fuel batches.tail nm1 (elapsed + 1)

/-- Model of `JanOS.do_scan`: clear the previous scan, then collect
batches until the sentinel or the scan timeout. -/
def do_scan (nm : NetworkManager) (batches : List (List String)) :
    NetworkManager × Nat :=
  do_scan_go SCAN_TIMEOUT batches (clear_networks nm) 0

-- ==========================================================================
-- JanOS.select_networks_menu (source lines 912-940)
-- ==========================================================================

/-- Model of `re.match(r'^[\d\s]+$', selection)` on a newline-free string:
nonempty and containing only digits and whitespace. -/
def selectionValid (s : String) : Bool :=
  !s.data.isEmpty && s.data.all (fun c => c.isDigit || c.isWhitespace)

/-- Model of the selection handling of `JanOS.select_networks_menu` from
the read input onward: empty-count guard, strip, empty-input guard,
case-insensitive `all` expansion, character validation, then the state
mutation and the `select_networks` command.  Returns the new
`NetworkManager` and the commands sent. -/
def select_networks (nm : NetworkManager) (raw : String) :
    NetworkManager × List String :=
  if nm.network_count = 0 then (nm, [])
  else
    let selection := stripWS raw
    if selection = "" then (nm, [])
    else
      let selection :=
        if lowerStr selection = "all" then
          joinSpace ((List.range nm.network_count).map (fun i => natToStr (i + 1)))
        else selection
      if selectionValid selection then
        (set_selected_networks nm selection, ["select_networks " ++ selection])
      else (nm, [])

-- ==========================================================================
-- JanOS.stop_all_attacks (source lines 2143-2206)
-- ==========================================================================

/-- The per-feature running flags and listener stop events of the
session. -/
structure AttackState where
  attack_running : Bool
  blackout_running : Bool
  sniffer_running : Bool
  sae_overflow_running : Bool
  handshake_running : Bool
  portal_running : Bool
  evil_twin_running : Bool
  stop_sniffer_event : Bool
  stop_portal_event : Bool
  stop_evil_twin_event : Bool
deriving DecidableEq

/-- True when no feature flag is set (the early-return guard of
`stop_all_attacks`). -/
def noneRunning (s : AttackState) : Bool :=
  !s.attack_running && !s.blackout_running && !s.sniffer_running &&
    !s.sae_overflow_running && !s.handshake_running && !s.portal_running &&
    !s.evil_twin_running

/-- Number of currently running features. -/
def numRunning (s : AttackState) : Nat :=
  (if s.attack_running then 1 else 0) + (if s.blackout_running then 1 else 0) +
    (if s.sniffer_running then 1 else 0) +
    (if s.sae_overflow_running then 1 else 0) +
    (if s.handshake_running then 1 else 0) +
    (if s.portal_running then 1 else 0) +
    (if s.evil_twin_running then 1 else 0)

/-- Model of `JanOS.stop_all_attacks`: early return when nothing runs,
otherwise one `stop` send, flag clear and (for the three listener-backed
features) stop-event set per running feature, in source order.  Returns
the new state and the commands sent. -/
def stop_all_attacks (s : AttackState) : AttackState × List String :=
  if noneRunning s then (s, [])
  else
    let r1 : AttackState × List String :=
      if s.attack_running then ({ s with attack_running := false }, ["stop"])
      else (s, [])
    let r2 : AttackState × List String :=
      if r1.1.blackout_running then
        ({ r1.1 with blackout_running := false }, r1.2 ++ ["stop"])
      else r1
    let r3 : AttackState × List String :=
      if r2.1.sniffer_running then
        ({ r2.1 with sniffer_running := false, stop_sniffer_event := true },
          r2.2 ++ ["stop"])
      else r2
    let r4 : AttackState × List String :=
      if r3.1.sae_overflow_running then
        ({ r3.1 with sae_overflow_running := false }, r3.2 ++ ["stop"])
      else r3
    let r5 : AttackState × List String :=
      if r4.1.handshake_running then
        ({ r4.1 with handshake_running := false }, r4.2 ++ ["stop"])
      else r4
    let r6 : AttackState × List String :=
      if r5.1.portal_running then
        ({ r5.1 with portal_running := false, stop_portal_event := true },
          r5.2 ++ ["stop"])
      else r5
    let r7 : AttackState × List String :=
      if r6.1.evil_twin_running then
        ({ r6.1 with evil_twin_running := false, stop_evil_twin_event := true },
          r6.2 ++ ["stop"])
      else r6
    r7

/-- A session state holding 5 scanned networks (for the selection
claims). -/
def fiveNetNM : NetworkManager :=
  { networks := List.replicate 5
      { index := "1", ssid := "Net", vendor := "V",
        bssid := "AA:BB:CC:DD:EE:01", channel := "6", auth := "WPA2",
        rssi := "-45", band := "2.4GHz" },
    network_count := 5, selected_networks := "", scan_done := true }

-- ==========================================================================
-- Helper lemmas
-- ==========================================================================

theorem isEmpty_false_iff {α} (l : List α) : l.isEmpty = false ↔ l ≠ [] := by
  cases l <;> simp

theorem all_takeWhile_self (p : Char → Bool) :
    ∀ l : List Char, (l.takeWhile p).all p = true := by
  intro l
  induction l with
  | nil => rfl
  | cons c t ih =>
    by_cases h : p c = true
    · simp [List.takeWhile_cons, h, ih]
    · simp [List.takeWhile_cons, h]

theorem scanPositions_some {f : List Char → Option (List Char)} :
    ∀ {l x}, scanPositions f l = some x → ∃ l', f l' = some x := by
  intro l
  induction l with
  | nil => intro x h; exact ⟨[], h⟩
  | cons c t ih =>
    intro x h
    unfold scanPositions at h
    split at h
    · next y heq => exact ⟨c :: t, heq.trans h⟩
    · exact ih h

theorem mkNetwork_ok (parts : List String) (h : 8 ≤ parts.length) :
    ∃ n, mkNetwork parts = Except.ok (some n) := by
  match parts, h with
  | p0 :: p1 :: p2 :: p3 :: p4 :: p5 :: p6 :: p7 :: rest, _ =>
    exact ⟨{ index := p0, ssid := if p1 = "" then "<hidden>" else p1,
             vendor := p2, bssid := p3, channel := p4, auth := p5,
             rssi := p6, band := p7 },
      by unfold mkNetwork
         rw [if_neg (by simp only [List.length_cons]; omega)]
         rfl⟩

theorem packet_group_digits {l ds : List Char} (h : packetMatchAt l = some ds) :
    ds ≠ [] ∧ ds.all Char.isDigit = true := by
  simp only [packetMatchAt] at h
  split_ifs at h with h1 h2 h3
  injection h with h
  subst h
  refine ⟨?_, all_takeWhile_self _ _⟩
  intro hnil
  apply h1
  rw [hnil]
  rfl

theorem captured_group_digits {l ds : List Char} (h : capturedMatchAt l = some ds) :
    ds ≠ [] ∧ ds.all Char.isDigit = true := by
  simp only [capturedMatchAt] at h
  split_ifs at h with h1 h2
  injection h with h
  subst h
  refine ⟨?_, all_takeWhile_self _ _⟩
  intro hnil
  apply h2
  rw [hnil]
  rfl

theorem mem_dropWhile_of_neg {p : Char → Bool} {c : Char} (hc : p c = false) :
    ∀ {l : List Char}, c ∈ l → c ∈ l.dropWhile p := by
  intro l
  induction l with
  | nil => intro h; cases h
  | cons x t ih =>
    intro h
    rw [List.dropWhile_cons]
    by_cases hx : p x = true
    · rw [if_pos hx]
      rcases List.mem_cons.mp h with rfl | hmem
      · rw [hc] at hx; cases hx
      · exact ih hmem
    · rw [if_neg hx]
      exact h

theorem mem_stripWS {c : Char} (hc : c.isWhitespace = false) {s : String}
    (h : c ∈ s.data) : c ∈ (stripWS s).data := by
  show c ∈ (((s.data.dropWhile Char.isWhitespace).reverse.dropWhile
    Char.isWhitespace).reverse)
  rw [List.mem_reverse]
  apply mem_dropWhile_of_neg hc
  rw [List.mem_reverse]
  exact mem_dropWhile_of_neg hc h

theorem digitsToNat_some {ds : List Char} (h1 : ds ≠ [])
    (h2 : ds.all Char.isDigit = true) : ∃ k, digitsToNat ds = some k := by
  have he : ds.isEmpty = false := by
    cases ds
    · exact absurd rfl h1
    · rfl
  exact ⟨ds.foldl (fun a c => a * 10 + (c.toNat - 48)) 0,
    by simp [digitsToNat, he, h2]⟩

-- ==========================================================================
-- Claim theorems
-- ==========================================================================

/-- Claim C1, counterexample: the claim says a field count different from
8 yields no record, but this line splits into 9 fields on the quoted-CSV
delimiter and the classifier still produces a record (the source only
rejects fewer than 8 fields). -/
theorem claim_C1_counterexample :
    parse_network_line "\"1\",\"a\",\"b\",\"c\",\"d\",\"e\",\"f\",\"g\",\"h\"" =
      some { index := "1", ssid := "a", vendor := "b", bssid := "c",
             channel := "d", auth := "e", rssi := "f", band := "g" } ∧
    (pySplit "\"1\",\"a\",\"b\",\"c\",\"d\",\"e\",\"f\",\"g\",\"h\"" "\",\"").length = 9 := by
  constructor <;> rfl

/-- Claim C1 (amended): the network-line classifier produces a record if
and only if the line begins with a quote character and splitting on the
quoted-CSV delimiter yields at least 8 fields (fields beyond the eighth
are ignored); a line not starting with a quote, or with fewer than 8
fields, yields no record. -/
theorem claim_C1 (line : String) :
    (parse_network_line line).isSome =
      (litAt ['"'] line.data && decide (8 ≤ (pySplit line "\",\"").length)) := by
  unfold parse_network_line parse_network_line_body
  by_cases hq : litAt ['"'] line.data = true
  · have hlen : (network_fields line).length = (pySplit line "\",\"").length := by
      simp [network_fields]
    by_cases h8 : 8 ≤ (pySplit line "\",\"").length
    · obtain ⟨n, hn⟩ := mkNetwork_ok (network_fields line) (by omega)
      simp [hq, hn, h8]
    · have hlt : (network_fields line).length < 8 := by omega
      simp [hq, mkNetwork, hlt, h8]
  · simp [Bool.eq_false_iff.mpr hq]

/-- Claim C9: the line classifiers are total — the body of
`parse_network_line` never raises (its indexing is fully guarded, so the
`except` branch is dead and every line yields either a record or no
record), and the packet-count classifier's `int()` conversions always
succeed on the matched groups. -/
theorem claim_C9 :
    (∀ line, ∃ r, parse_network_line_body line = Except.ok r) ∧
    (∀ packets data, ∃ k, update_sniffer_checked packets data = some k) := by
  constructor
  · intro line
    unfold parse_network_line_body
    by_cases h : (network_fields line).length < 8
    · exact ⟨none, by simp [mkNetwork, h]⟩
    · obtain ⟨n, hn⟩ := mkNetwork_ok (network_fields line) (by omega)
      exact ⟨some n, hn⟩
  · intro packets data
    unfold update_sniffer_checked
    cases hg : findPacketGroup data with
    | some ds =>
      obtain ⟨l', hl⟩ := scanPositions_some hg
      obtain ⟨h1, h2⟩ := packet_group_digits hl
      obtain ⟨k, hk⟩ := digitsToNat_some h1 h2
      exact ⟨k, by simp [hk]⟩
    | none =>
      by_cases hc : strContains (lowerStr data) "captured" = true
      · cases hg2 : findCapturedGroup data with
        | some ds =>
          obtain ⟨l', hl⟩ := scanPositions_some hg2
          obtain ⟨h1, h2⟩ := captured_group_digits hl
          obtain ⟨k, hk⟩ := digitsToNat_some h1 h2
          exact ⟨k, by simp [hc, hk]⟩
        | none => exact ⟨packets, by simp [hc]⟩
      · exact ⟨packets, by simp [hc]⟩

/-- Claim C10: `network_count` always equals the length of `networks` —
it holds in the initial state and is preserved by `add_network` (which
appends and increments together), `clear_networks` (which empties and
zeroes together) and `set_selected_networks` (which touches neither). -/
theorem claim_C10 :
    count_inv networkManagerInit ∧
    (∀ nm line, count_inv nm → count_inv (add_network nm line)) ∧
    (∀ nm, count_inv (clear_networks nm)) ∧
    (∀ nm s, count_inv nm → count_inv (set_selected_networks nm s)) := by
  refine ⟨rfl, ?_, ?_, ?_⟩
  · intro nm line h
    unfold count_inv add_network at *
    cases parse_network_line line <;> simp [h]
  · intro nm
    rfl
  · intro nm s h
    exact h

/-- Claim C10, witness: the invariant instantiated on concrete states. -/
theorem claim_C10_witness :
    count_inv (add_network networkManagerInit
      "\"1\",\"a\",\"b\",\"c\",\"d\",\"e\",\"f\",\"g\"") ∧
    count_inv (set_selected_networks networkManagerInit "1 3") :=
  ⟨claim_C10.2.1 networkManagerInit _ (by decide),
   claim_C10.2.2.2 networkManagerInit "1 3" (by decide)⟩

theorem read_response_go_eq (fuel : Nat) :
    ∀ (trace : List (Option String)) (acc : List String) (elapsed : Nat),
      read_response_go fuel trace acc elapsed =
        (acc.reverse ++
          ((trace.take fuel).filterMap id).filter (fun s => s != ""),
         elapsed + fuel) := by
  induction fuel with
  | zero =>
    intro trace acc elapsed
    simp [read_response_go]
  | succ f ih =>
    intro trace acc elapsed
    cases trace with
    | nil =>
      simp [read_response_go, ih]
      omega
    | cons e rest =>
      cases e with
      | some line =>
        by_cases hl : line = ""
        · subst hl
          simp [read_response_go, ih]
          omega
        · have hbeq : (line == "") = false := by
            simpa using hl
          simp [read_response_go, ih, hbeq, hl]
          omega
      | none =>
        simp [read_response_go, ih]
        omega

/-- Claim C2, counterexample: the claim says that when the source emits
its lines within a duration shorter than the timeout, `read_response`
returns without waiting out the full timeout; here both lines arrive in
the first two ticks of a 5-tick timeout, yet the loop still runs all 5
ticks before returning (the loop's only exit is the deadline). -/
theorem claim_C2_counterexample :
    read_response 5 [some "L1", some "L2"] = (["L1", "L2"], 5) ∧
    ¬ (read_response 5 [some "L1", some "L2"]).2 < 5 := by
  constructor <;> decide

/-- Claim C2 (amended): `read_response` returns exactly the non-empty
lines that arrived within the window, in arrival order (an empty result
is a normal outcome), but it always waits out the full timeout: the
elapsed time at return equals the timeout even when every line arrived
earlier. -/
theorem claim_C2 (timeout : Nat) (trace : List (Option String)) :
    read_response timeout trace =
      (((trace.take timeout).filterMap id).filter (fun s => s != ""),
       timeout) := by
  unfold read_response
  rw [read_response_go_eq]
  simp

/-- Claim C3: the probe classifier applied to the claim's line extracts
the MAC and the ssid, but reports the RSSI placeholder `N/A` instead of
`-60dBm`: the source's pattern `(-?\d+)\s*dBm?` makes only the final `m`
optional, so a bare `-60` with no `dB` after it never matches — contrary
to the claim, to the source's own format comments, and to its comment
`look for numbers with minus sign or dBm`.  A line that does carry `dBm`
(second conjunct) is extracted as the claim describes. -/
theorem claim_C3 :
    parse_probe_line "Client: AA:BB:CC:DD:EE:FF, SSID: Home, RSSI: -60" =
      { client_mac := "AA:BB:CC:DD:EE:FF", ssid := "Home", rssi := "N/A",
        timestamp := "" } ∧
    (parse_probe_line "Client: AA:BB:CC:DD:EE:FF, SSID: Home, RSSI: -60").rssi
      ≠ "-60dBm" ∧
    (parse_probe_line "AA:BB:CC:DD:EE:FF -> MyNet (-55dBm)").rssi = "-55dBm" := by
  refine ⟨by decide, by decide, by decide⟩

/-- Claim C4: the packet-count classifier overwrites the counter with the
parsed integer on a `<integer> packet(s)` or `captured: <integer>` match
(case-insensitive), last write wins — `42 packets` sets to 42 and a
subsequent `captured: 7` sets to 7, from any prior counter — and a line
matching neither pattern leaves any counter unchanged. -/
theorem claim_C4 (packets : Nat) :
    update_sniffer_display packets "42 packets" = 42 ∧
    update_sniffer_display (update_sniffer_display packets "42 packets")
      "captured: 7" = 7 ∧
    (∀ (n : Nat) (data : String), findPacketGroup data = none →
      findCapturedGroup data = none → update_sniffer_display n data = n) := by
  refine ⟨rfl, rfl, ?_⟩
  intro n data h1 h2
  unfold update_sniffer_display update_sniffer_checked
  rw [h1, h2]
  by_cases hc : strContains (lowerStr data) "captured" = true <;> simp [hc]

/-- Claim C4, witness: the overwrite chain at counter 0 and an ignored
line at counter 5. -/
theorem claim_C4_witness :
    update_sniffer_display 0 "42 packets" = 42 ∧
    update_sniffer_display 42 "captured: 7" = 7 ∧
    update_sniffer_display 5 "no counters here" = 5 :=
  ⟨(claim_C4 0).1, (claim_C4 0).2.1,
   (claim_C4 0).2.2 5 "no counters here" (by decide) (by decide)⟩

/-- Claim C5: the scan collection loop stops as soon as the sentinel
`Scan results printed` is observed — whatever arrives in later windows
(`rest`) is never read — and on the batch of the two well-formed 8-field
lines (the second with an empty ssid) followed by the sentinel it yields
exactly 2 records, the second with the hidden placeholder, after 1 tick,
well before the 15-tick scan timeout. -/
theorem claim_C5 (nm : NetworkManager) (rest : List (List String)) :
    (do_scan nm
      (["\"1\",\"HomeNet\",\"TP-Link\",\"AA:BB:CC:DD:EE:01\",\"6\",\"WPA2\",\"-45\",\"2.4GHz\"",
        "\"2\",\"\",\"AcmeCorp\",\"AA:BB:CC:DD:EE:02\",\"11\",\"WPA2\",\"-72\",\"5GHz\"",
        "Scan results printed"] :: rest)) =
      ({ networks :=
          [{ index := "1", ssid := "HomeNet", vendor := "TP-Link",
             bssid := "AA:BB:CC:DD:EE:01", channel := "6", auth := "WPA2",
             rssi := "-45", band := "2.4GHz" },
           { index := "2", ssid := "<hidden>", vendor := "AcmeCorp",
             bssid := "AA:BB:CC:DD:EE:02", channel := "11", auth := "WPA2",
             rssi := "-72", band := "5GHz" }],
         network_count := 2,
         selected_networks := nm.selected_networks,
         scan_done := true }, 1) ∧
    1 < SCAN_TIMEOUT := by
  exact ⟨rfl, by decide⟩

/-- Claim C6: `stop_all_attacks` with nothing running sends zero commands
and changes nothing; in general it sends exactly one `stop` per running
feature, clears every flag, signals the stop event of each running
listener-backed feature, and a second consecutive invocation is a no-op
(idempotence). -/
theorem claim_C6 (s : AttackState) :
    (noneRunning s = true → stop_all_attacks s = (s, [])) ∧
    (stop_all_attacks s).2 = List.replicate (numRunning s) "stop" ∧
    noneRunning (stop_all_attacks s).1 = true ∧
    (stop_all_attacks s).1.stop_sniffer_event =
      (s.stop_sniffer_event || s.sniffer_running) ∧
    (stop_all_attacks s).1.stop_portal_event =
      (s.stop_portal_event || s.portal_running) ∧
    (stop_all_attacks s).1.stop_evil_twin_event =
      (s.stop_evil_twin_event || s.evil_twin_running) ∧
    stop_all_attacks (stop_all_attacks s).1 = ((stop_all_attacks s).1, []) := by
  obtain ⟨a, b, c, d, e, f, g, se, pe, ee⟩ := s
  revert a b c d e f g se pe ee
  decide

/-- Claim C6, witness: an idle session is untouched; with sniffer and
portal running the call sends exactly two stops and the second call is a
no-op. -/
theorem claim_C6_witness :
    stop_all_attacks
      ⟨false, false, false, false, false, false, false, false, false, false⟩ =
      (⟨false, false, false, false, false, false, false, false, false, false⟩, []) ∧
    (stop_all_attacks
      ⟨false, false, true, false, false, true, false, false, false, false⟩).2 =
      List.replicate 2 "stop" ∧
    stop_all_attacks
      (stop_all_attacks
        ⟨false, false, true, false, false, true, false, false, false, false⟩).1 =
      ((stop_all_attacks
        ⟨false, false, true, false, false, true, false, false, false, false⟩).1, []) :=
  ⟨(claim_C6 _).1 (by decide),
   (claim_C6 ⟨false, false, true, false, false, true, false, false, false, false⟩).2.1,
   (claim_C6 ⟨false, false, true, false, false, true, false, false, false, false⟩).2.2.2.2.2.2⟩

/-- Claim C7: the portal classifier's predicates are checked in a fixed
priority order, and a line carrying `Password:` that does not carry the
higher-priority client markers is classified as a password submission —
the submitted-forms counter is incremented, the client count is
untouched, and the captured text is recorded: when the capture regex
matches, `last_submitted_data` becomes `Password: ` followed by the
captured text, and only when it matches nothing is the recorded text
left as it was — even when the line also contains an error keyword. -/
theorem claim_C7 (s : PortalState) (data : String)
    (hpw : strContains data "Password:" = true)
    (hcc : strContains data "Client connected" = false)
    (hcu : strContains data "Client count" = false) :
    (update_portal_display s data).2 = PortalEvent.passwordSubmission ∧
    (update_portal_display s data).1.submitted_forms = s.submitted_forms + 1 ∧
    (update_portal_display s data).1.client_count = s.client_count ∧
    (∀ pw, passwordCapture data = some pw →
      (update_portal_display s data).1.last_submitted_data =
        "Password: " ++ pw) ∧
    (passwordCapture data = none →
      (update_portal_display s data).1.last_submitted_data =
        s.last_submitted_data) := by
  simp only [update_portal_display, hpw, hcc, hcu]
  cases hp : passwordCapture data <;> simp [hp]

/-- Claim C7, witness: a line containing both `Password:` and the error
keyword `failed` is treated as a password submission, recording the
captured text after the marker, not as an error. -/
theorem claim_C7_witness :
    strContains (lowerStr "Password: hunter2 failed") "failed" = true ∧
    (update_portal_display ⟨0, 0, ""⟩ "Password: hunter2 failed").2 =
      PortalEvent.passwordSubmission ∧
    (update_portal_display ⟨0, 0, ""⟩ "Password: hunter2 failed").1.submitted_forms
      = 0 + 1 ∧
    (update_portal_display ⟨0, 0, ""⟩ "Password: hunter2 failed").1.client_count
      = 0 ∧
    (update_portal_display ⟨0, 0, ""⟩ "Password: hunter2 failed").1.last_submitted_data
      = "Password: " ++ "hunter2 failed" :=
  have h := claim_C7 ⟨0, 0, ""⟩ "Password: hunter2 failed"
    (by decide) (by decide) (by decide)
  ⟨by decide, h.1, h.2.1, h.2.2.1, h.2.2.2.1 "hunter2 failed" (by decide)⟩

/-- Claim C8, counterexample: the claim universally rejects every
selection text containing a letter, but the selection text `all` itself
consists of letters and is accepted: it expands, mutates the session
selection state and sends a select command. -/
theorem claim_C8_counterexample :
    select_networks fiveNetNM "all" =
      ({ fiveNetNM with selected_networks := "1 2 3 4 5" },
        ["select_networks 1 2 3 4 5"]) ∧
    ∃ c ∈ "all".data, c.isDigit = false ∧ c.isWhitespace = false :=
  ⟨rfl, ⟨'a', by decide, by decide, by decide⟩⟩

/-- Claim C8 (amended): with 5 known networks the selection text `all`
expands to `1 2 3 4 5` (state updated, one select command sent); and
every selection text containing a letter — any character outside digits
and whitespace — other than a case-insensitive spelling of `all`, is
rejected: the session selection state is unchanged and no command is
sent. -/
theorem claim_C8 :
    (∀ nm : NetworkManager, nm.network_count = 5 →
      select_networks nm "all" =
        (set_selected_networks nm "1 2 3 4 5", ["select_networks 1 2 3 4 5"])) ∧
    (∀ (nm : NetworkManager) (sel : String),
      (∃ c ∈ sel.data, c.isDigit = false ∧ c.isWhitespace = false) →
      lowerStr (stripWS sel) ≠ "all" →
      select_networks nm sel = (nm, [])) := by
  constructor
  · intro nm h5
    unfold select_networks
    rw [h5]
    rfl
  · rintro nm sel ⟨c, hcmem, hcd, hcw⟩ hall
    have hcs : c ∈ (stripWS sel).data := mem_stripWS hcw hcmem
    have hne : stripWS sel ≠ "" := by
      intro he
      rw [he] at hcs
      cases hcs
    have hval : selectionValid (stripWS sel) = false := by
      have hfa : (stripWS sel).data.all (fun x => x.isDigit || x.isWhitespace)
          = false := by
        rw [Bool.eq_false_iff]
        intro hal
        have hx := List.all_eq_true.mp hal c hcs
        rw [hcd, hcw] at hx
        cases hx
      simp [selectionValid, hfa]
    by_cases h0 : nm.network_count = 0
    · simp [select_networks, h0]
    · simp [select_networks, h0, hne, hall, hval]

/-- Claim C8, witness: a selection containing the letter `x` is rejected
without touching the session state or sending a command. -/
theorem claim_C8_witness :
    select_networks fiveNetNM "1 x 3" = (fiveNetNM, []) :=
  claim_C8.2 fiveNetNM "1 x 3" ⟨'x', by decide, by decide, by decide⟩ (by decide)
